import Mathlib

/-!
Verification of the biblioteca backend: a shallow embedding of
`src/routes.ts` (route table, the two `AlunoController` copies, the
`Usuario` model) together with the authentication core that the spec
documents.  The `Auth` module (`src/util/Auth.ts`) is not among the
available sources — only its callers in `routes.ts` are — so the Token
Codec and Auth Gateway are modelled from the spec, as marked on each
such definition.
-/

/-- Student record as constructed by the controllers: the six constructor
arguments of `model/Aluno` plus the `idAluno` set through `setIdAluno`.
Dates are carried as strings. -/
structure Aluno where
  nome : String
  sobrenome : String
  dataNascimento : String
  endereco : String
  email : String
  celular : String
  idAluno : Int
deriving DecidableEq, Repr

/-- HTTP response body shapes observed in the controllers: a
mensagem-shaped JSON envelope, a raw JSON array of students, a bare JSON
string (`res.json` applied to a string), or plain text sent with
`res.send`. -/
inductive Body where
  | envelope : String → Body
  | arr : List Aluno → Body
  | str : String → Body
  | text : String → Body
deriving DecidableEq, Repr

/-- An HTTP response: status code and body. -/
structure HttpResponse where
  status : Nat
  body : Body
deriving DecidableEq, Repr

/-- The status is in the 2xx success class. -/
def is2xx (s : Nat) : Bool := 200 ≤ s && s < 300

/-- The status is in the 4xx client-error class. -/
def is4xx (s : Nat) : Bool := 400 ≤ s && s < 500

/-- The status is in the 5xx server-error class. -/
def is5xx (s : Nat) : Bool := 500 ≤ s && s < 600

/-- The body is a mensagem-shaped JSON envelope. -/
def Body.isEnvelope : Body → Bool
  | .envelope _ => true
  | _ => false

/-- The body is a raw JSON array. -/
def Body.isArr : Body → Bool
  | .arr _ => true
  | _ => false

/-- The body is a bare JSON string. -/
def Body.isStr : Body → Bool
  | .str _ => true
  | _ => false

/-- The body is plain text from `res.send`. -/
def Body.isText : Body → Bool
  | .text _ => true
  | _ => false

/-- The `AlunoDTO` interface: the request-body fields the controllers
read.  `dataNascimento` and `endereco` are optional. -/
structure AlunoDTO where
  nome : String
  sobrenome : String
  dataNascimento : Option String
  endereco : Option String
  email : String
  celular : String
deriving DecidableEq, Repr

/-- JavaScript falsiness of a string value as used in the required-field
guard `!dadosRecebidos.nome`: the empty string is falsy. -/
def falsyStr (s : String) : Bool := s = ""

/-- The required-field guard of `cadastrar`: nome, sobrenome, email or
celular missing/empty. -/
def camposObrigatoriosFaltando (d : AlunoDTO) : Bool :=
  falsyStr d.nome || falsyStr d.sobrenome || falsyStr d.email || falsyStr d.celular

/-- One entry of the `mensagens` response table: an HTTP status plus a
fixed message. -/
structure Resposta where
  status : Nat
  mensagem : String
deriving DecidableEq, Repr

/- First copy of AlunoController (the documented one).  Domain calls
(`Aluno.listarAlunos`, `Aluno.cadastrarAluno`, ...) are external
collaborators: their outcome is passed in as an `Except Unit _` value,
`Except.error` standing for a thrown error caught by the controller's
catch block. -/

namespace AlunoController

/-- The entry the `?? mensagens[0]` fallback of `cadastrar` selects. -/
def respostaErroCadastro : Resposta :=
  ⟨400, "Erro ao cadastrar aluno. Entre em contato com o administrador do sistema para mais detalhes."⟩

/-- The `mensagens` record of `AlunoController.cadastrar`: a partial map
from the numeric result code to a status/message pair, with entries for
0, 1 and 9 only. -/
def mensagens (result : Int) : Option Resposta :=
  if result = 0 then some respostaErroCadastro
  else if result = 1 then some ⟨201, "Aluno cadastrado com sucesso!"⟩
  else if result = 9 then some ⟨406, "Parâmetros obrigatórios não informados."⟩
  else none

/-- `AlunoController.todos`, first copy: 200 with the raw array on
success; catch block answers 500 with the administrator envelope. -/
def todos (lista : Except Unit (List Aluno)) : HttpResponse :=
  match lista with
  | .ok l => ⟨200, Body.arr l⟩
  | .error _ => ⟨500, Body.envelope "Erro ao recuperar as informações do aluno. Entre em contato com o administrador do sistema para mais detalhes."⟩

/-- `AlunoController.cadastrar`, first copy: 406 when a required field is
missing, otherwise the `mensagens[result] ?? mensagens[0]` table applied
to the domain result; catch block answers 500. -/
def cadastrar (dados : AlunoDTO) (result : Except Unit Int) : HttpResponse :=
  if camposObrigatoriosFaltando dados then
    ⟨406, Body.envelope "Parâmetros obrigatórios não informados."⟩
  else
    match result with
    | .error _ => ⟨500, Body.envelope "Erro ao cadastrar o aluno. Entre em contato com o administrador do sistema para mais detalhes."⟩
    | .ok r =>
        let resposta := (mensagens r).getD respostaErroCadastro
        ⟨resposta.status, Body.envelope resposta.mensagem⟩

/-- `AlunoController.remover`, first copy: switch on the result code with
bare-string JSON bodies; catch block sends plain text with status 500. -/
def remover (result : Except Unit Int) : HttpResponse :=
  match result with
  | .error _ => ⟨500, Body.text "Erro ao remover aluno. Entre em contato com o administrador do sistema para mais detalhes."⟩
  | .ok r =>
      if r = 0 then ⟨400, Body.str "Erro ao deletar aluno. Entre em contato com o administrador do sistema para mais detalhes."⟩
      else if r = 1 then ⟨200, Body.str "Aluno removido com sucesso."⟩
      else if r = 9 then ⟨400, Body.str "Aluno não encontrado."⟩
      else ⟨400, Body.str "Erro ao deletar aluno. Entre em contato com o administrador do sistema para mais detalhes."⟩

/-- `AlunoController.atualizar`, first copy: 200/400 chosen by
`result === 1`, with the matching envelope; catch block answers 500. -/
def atualizar (result : Except Unit Int) : HttpResponse :=
  match result with
  | .error _ => ⟨500, Body.envelope "Erro ao atualizar aluno. Entre em contato com o administrador do sistema para mais detalhes."⟩
  | .ok r =>
      ⟨if r = 1 then 200 else 400,
       Body.envelope (if r = 1 then "Aluno atualizado com sucesso!" else "Erro ao atualizar aluno.")⟩

end AlunoController

/- Second copy of AlunoController found in the sources.  Its success
paths repeat the first copy; its catch blocks differ. -/

namespace AlunoControllerV2

/-- The entry the `?? mensagens[0]` fallback of the second `cadastrar`
selects. -/
def respostaErroCadastro : Resposta :=
  ⟨400, "Erro ao cadastrar aluno. Entre em contato com o administrador do sistema para mais detalhes."⟩

/-- The `mensagens` record of the second copy of `cadastrar`. -/
def mensagens (result : Int) : Option Resposta :=
  if result = 0 then some respostaErroCadastro
  else if result = 1 then some ⟨201, "Aluno cadastrado com sucesso!"⟩
  else if result = 9 then some ⟨406, "Parâmetros obrigatórios não informados."⟩
  else none

/-- `AlunoController.todos`, second copy: 200 with the raw array on
success; its catch block answers 400 (not 500) with the administrator
envelope. -/
def todos (lista : Except Unit (List Aluno)) : HttpResponse :=
  match lista with
  | .ok l => ⟨200, Body.arr l⟩
  | .error _ => ⟨400, Body.envelope "Erro ao recuperar as informações do aluno. Entre em contato com o administrador do sistema para mais detalhes."⟩

/-- `AlunoController.cadastrar`, second copy: same guard and response
table as the first copy; its catch block answers 400 (not 500). -/
def cadastrar (dados : AlunoDTO) (result : Except Unit Int) : HttpResponse :=
  if camposObrigatoriosFaltando dados then
    ⟨406, Body.envelope "Parâmetros obrigatórios não informados."⟩
  else
    match result with
    | .error _ => ⟨400, Body.envelope "Erro ao cadastrar o aluno. Entre em contato com o administrador do sistema para mais detalhes."⟩
    | .ok r =>
        let resposta := (mensagens r).getD respostaErroCadastro
        ⟨resposta.status, Body.envelope resposta.mensagem⟩

/-- `AlunoController.remover`, second copy: same switch as the first
copy; its catch block sends the plain text "error" with status 500. -/
def remover (result : Except Unit Int) : HttpResponse :=
  match result with
  | .error _ => ⟨500, Body.text "error"⟩
  | .ok r =>
      if r = 0 then ⟨400, Body.str "Erro ao deletar aluno. Entre em contato com o administrador do sistema para mais detalhes."⟩
      else if r = 1 then ⟨200, Body.str "Aluno removido com sucesso."⟩
      else if r = 9 then ⟨400, Body.str "Aluno não encontrado."⟩
      else ⟨400, Body.str "Erro ao deletar aluno. Entre em contato com o administrador do sistema para mais detalhes."⟩

/-- `AlunoController.atualizar`, second copy: switch with 400/201/406 and
a 400 default; its catch block calls `res.json` without setting a status,
so Express answers with the default status 200. -/
def atualizar (result : Except Unit Int) : HttpResponse :=
  match result with
  | .error _ => ⟨200, Body.envelope "Erro ao atualizar aluno."⟩
  | .ok r =>
      if r = 0 then ⟨400, Body.envelope "Erro ao atualizar aluno. Entre em contato com o administrador do sistema para mais detalhes."⟩
      else if r = 1 then ⟨201, Body.envelope "Aluno atualizado com sucesso!"⟩
      else if r = 9 then ⟨406, Body.envelope "Aluno não encontrado."⟩
      else ⟨400, Body.envelope "Erro ao atualizar aluno. Entre em contato com o administrador do sistema para mais detalhes."⟩

end AlunoControllerV2

/-! Authentication core.  `src/util/Auth.ts` is not among the available
sources (only `routes.ts` calls it), so the Token Codec and the Auth
Gateway below are modelled from the spec. -/

/-- Reasons of the auth error taxonomy. -/
inductive AuthReason where
  | noSuchUser
  | badCredential
  | noToken
  | invalidToken
deriving DecidableEq, Repr

/-- AuthorizationOutcome: `Authorized(subject)` or
`Unauthorized(reason)`, produced by the Auth Gateway and consumed by the
router to decide whether the request is forwarded. -/
inductive AuthorizationOutcome where
  | Authorized : String → AuthorizationOutcome
  | Unauthorized : AuthReason → AuthorizationOutcome
deriving DecidableEq, Repr

/-- Modelled from the spec: the Token Codec's signature, a deterministic
signing of the subject plus issuance time under the secret (its concrete
shape in `src/util/Auth.ts` is not available; a fold hash stands in for
it). -/
def sign (subject : String) (iat : Nat) (secret : Nat) : Nat :=
  subject.data.foldl (fun a c => a * 31 + c.toNat) (secret * 31 + iat)

/-- Modelled from the spec: an AuthToken, an opaque signed value encoding
a subject claim, an issuance timestamp and a signature. -/
structure AuthToken where
  subject : String
  iat : Nat
  sig : Nat
deriving DecidableEq, Repr

/-- Modelled from the spec: `issue(subject, secret)` of the Token Codec
(`src/util/Auth.ts`, not available): deterministic signing of the subject
plus issuance time under the secret. -/
def issue (subject : String) (secret : Nat) (iat : Nat) : AuthToken :=
  ⟨subject, iat, sign subject iat secret⟩

/-- Modelled from the spec: `verify(token, secret)` of the Token Codec
(`src/util/Auth.ts`, not available): recomputes the signature and returns
`Authorized(subject)` on match, `Unauthorized(invalid-token)` otherwise.
No expiry is configured (the spec records expiry as an open question). -/
def verify (t : AuthToken) (secret : Nat) : AuthorizationOutcome :=
  if t.sig = sign t.subject t.iat secret then .Authorized t.subject
  else .Unauthorized .invalidToken

/-- A user record of the credential store as the spec and the `Usuario`
model describe it. -/
structure UserRecord where
  idUsuario : Nat
  uuid : String
  nome : String
  username : String
  email : String
  senha : String
deriving DecidableEq, Repr

/-- `findUserByUsername` of the credential store: first record with the
given username, or not-found. -/
def findUserByUsername (store : List UserRecord) (username : String) : Option UserRecord :=
  store.find? (fun r => r.username = username)

/-- Outcome of a login attempt: an issued token or a refusal reason. -/
inductive LoginOutcome where
  | Authorized : AuthToken → LoginOutcome
  | Unauthorized : AuthReason → LoginOutcome
deriving DecidableEq, Repr

/-- Modelled from the spec: the Auth Gateway's login state machine
(`Auth.validacaoUsuario` in `src/util/Auth.ts`, not available): look up
the username; not found is terminal `Unauthorized(no-such-user)`; found
with a password mismatch is terminal `Unauthorized(bad-credential)`; a
match issues a token for the subject. -/
def login (store : List UserRecord) (username password : String) (secret iat : Nat) : LoginOutcome :=
  match findUserByUsername store username with
  | none => .Unauthorized .noSuchUser
  | some r =>
      if password = r.senha then .Authorized (issue r.username secret iat)
      else .Unauthorized .badCredential

/-- Modelled from the spec: the HTTP status the login route pairs with
each outcome — every auth failure is a 401-class response. -/
def loginStatus : LoginOutcome → Nat
  | .Authorized _ => 200
  | .Unauthorized _ => 401

/-- Modelled from the spec: `Auth.verifyToken`, the authorization check
on a protected route: a missing token header is terminal
`Unauthorized(no-token)`; a present token is verified by the Token
Codec. -/
def verifyTokenMiddleware (header : Option AuthToken) (secret : Nat) : AuthorizationOutcome :=
  match header with
  | none => .Unauthorized .noToken
  | some t => verify t secret

/-- The composed `GET listar-alunos` route of `routes.ts`:
`Auth.verifyToken` runs first and, only when it authorizes the request,
`AlunoController.todos` runs.  The second component counts how many
times the controller ran.  The 401 refusal carries a generic
mensagem-shaped error envelope. -/
def listarAlunosRoute (header : Option AuthToken) (secret : Nat)
    (lista : Except Unit (List Aluno)) : HttpResponse × Nat :=
  match verifyTokenMiddleware header secret with
  | .Unauthorized _ => (⟨401, Body.envelope "Token inválido ou ausente."⟩, 0)
  | .Authorized _ => (AlunoController.todos lista, 1)

/-! The `Usuario` model, from the sources. -/

/-- A row of the `usuario` table as `SELECT * FROM usuario` returns it. -/
structure UsuarioRow where
  id_usuario : Nat
  uuid : String
  nome : String
  username : String
  email : String
  senha : String
deriving DecidableEq, Repr

/-- The `Usuario` class fields. -/
structure Usuario where
  idUsuario : Nat
  uuidUsuario : String
  nome : String
  username : String
  email : String
  senha : String
deriving DecidableEq, Repr

/-- The `Usuario` constructor: takes nome, username and email;
`idUsuario` starts at 0, `uuidUsuario` and `senha` start empty. -/
def Usuario.new (nome username email : String) : Usuario :=
  ⟨0, "", nome, username, email, ""⟩

/-- `Usuario.listarUsuarios`: maps each row of the query result to a
`Usuario` built with the three-argument constructor followed by
`setIdUsuario` and `setUuidUsuario`; the `senha` column of the row is
never copied.  Returns null (`none`) when the query throws. -/
def listarUsuarios (db : Except Unit (List UsuarioRow)) : Option (List Usuario) :=
  match db with
  | .error _ => none
  | .ok rows =>
      some (rows.map (fun u =>
        let novoUsuario := Usuario.new u.nome u.username u.email
        { novoUsuario with idUsuario := u.id_usuario, uuidUsuario := u.uuid }))

/-- Two rows agree on every column except possibly `senha`. -/
def rowsAgreeExceptSenha (a b : UsuarioRow) : Prop :=
  a.id_usuario = b.id_usuario ∧ a.uuid = b.uuid ∧ a.nome = b.nome ∧
  a.username = b.username ∧ a.email = b.email

/-- A DTO with every required field present, used to exercise the
controllers on a concrete input. -/
def dtoValido : AlunoDTO :=
  ⟨"Ana", "Silva", some "2000-01-01", some "Rua 1", "ana@mail.com", "11999990000"⟩

/-- The stored record of the spec's login scenario: username "ana" with
stored password "correct". -/
def anaRecord : UserRecord :=
  ⟨1, "uuid-1", "Ana", "ana", "ana@mail.com", "correct"⟩

/-- C2: round-trip law of the Token Codec — verifying a token produced by
`issue(s, k)` under the same secret `k` yields `Authorized(s)`, for every
subject, secret and issuance time. -/
theorem verify_issue_roundtrip (s : String) (k iat : Nat) :
    verify (issue s k iat) k = AuthorizationOutcome.Authorized s := by
  simp [verify, issue]

/-- C3: a token that verifies successfully always yields the subject it
was issued for — if `verify t k = Authorized s` and `t = issue s2 k2 iat`
then `s = s2`, so no two distinct subjects validate against one token. -/
theorem verify_subject_matches_issuer (t : AuthToken) (k k2 iat : Nat) (s s2 : String)
    (hiss : t = issue s2 k2 iat)
    (hv : verify t k = AuthorizationOutcome.Authorized s) :
    s = s2 := by
  subst hiss
  unfold verify at hv
  split at hv
  · simp only [issue] at hv
    injection hv with h
    exact h.symm
  · simp at hv

/-- C3 witness: at subject "bob" and secret 7 the verification hypothesis
holds concretely and the theorem applies. -/
theorem verify_subject_matches_issuer_witness :
    verify (issue "bob" 7 3) 7 = AuthorizationOutcome.Authorized "bob" ∧
    ("bob" : String) = "bob" :=
  ⟨by decide,
   verify_subject_matches_issuer (issue "bob" 7 3) 7 7 3 "bob" "bob" rfl (by decide)⟩

/-- C4: the Auth Gateway's login outcome is determined by the credential
store — unknown username gives terminal `Unauthorized(no-such-user)`, a
known username with a wrong password gives terminal
`Unauthorized(bad-credential)` with HTTP 401, a matching password gives
`Authorized` with an issued token; concretely, username "ana" with
password "wrong" against stored password "correct" gives
`Unauthorized(bad-credential)` and HTTP 401. -/
theorem login_outcomes (store : List UserRecord) (u p : String) (k iat : Nat)
    (r : UserRecord)
    (hfound : findUserByUsername store u = some r)
    (hmismatch : p ≠ r.senha) :
    login store u p k iat = LoginOutcome.Unauthorized AuthReason.badCredential ∧
    loginStatus (login store u p k iat) = 401 ∧
    (∀ st u2 p2, findUserByUsername st u2 = none →
        login st u2 p2 k iat = LoginOutcome.Unauthorized AuthReason.noSuchUser) ∧
    (∀ st u2 p2 r2, findUserByUsername st u2 = some r2 → p2 = r2.senha →
        login st u2 p2 k iat = LoginOutcome.Authorized (issue r2.username k iat)) ∧
    login [anaRecord] "ana" "wrong" k iat = LoginOutcome.Unauthorized AuthReason.badCredential ∧
    loginStatus (login [anaRecord] "ana" "wrong" k iat) = 401 := by
  refine ⟨?_, ?_, ?_, ?_, ?_, ?_⟩
  · simp [login, hfound, hmismatch]
  · simp [login, hfound, hmismatch, loginStatus]
  · intro st u2 p2 hnone
    simp [login, hnone]
  · intro st u2 p2 r2 hsome hpw
    simp [login, hsome, hpw]
  · simp [login, findUserByUsername, anaRecord]
  · simp [login, findUserByUsername, anaRecord, loginStatus]

/-- C4 witness: the spec's concrete scenario — store holding the "ana"
record with password "correct", login attempt with password "wrong". -/
theorem login_outcomes_witness :
    findUserByUsername [anaRecord] "ana" = some anaRecord ∧
    ("wrong" : String) ≠ anaRecord.senha ∧
    login [anaRecord] "ana" "wrong" 5 0 = LoginOutcome.Unauthorized AuthReason.badCredential := by
  refine ⟨by decide, by decide, ?_⟩
  exact (login_outcomes [anaRecord] "ana" "wrong" 5 0 anaRecord (by decide) (by decide)).1

/-- C5: for create, update and remove (both controller copies), the
tri-state domain result codes map to HTTP classes success-to-2xx (code
1), failure-to-4xx (code 0) and not-found/invalid-to-4xx (code 9), each
paired with its fixed message. -/
theorem resultCode_http_mapping :
    (is2xx (AlunoController.cadastrar dtoValido (Except.ok 1)).status = true ∧
     AlunoController.cadastrar dtoValido (Except.ok 1) =
       ⟨201, Body.envelope "Aluno cadastrado com sucesso!"⟩) ∧
    (is4xx (AlunoController.cadastrar dtoValido (Except.ok 0)).status = true ∧
     AlunoController.cadastrar dtoValido (Except.ok 0) =
       ⟨400, Body.envelope "Erro ao cadastrar aluno. Entre em contato com o administrador do sistema para mais detalhes."⟩) ∧
    (is4xx (AlunoController.cadastrar dtoValido (Except.ok 9)).status = true ∧
     AlunoController.cadastrar dtoValido (Except.ok 9) =
       ⟨406, Body.envelope "Parâmetros obrigatórios não informados."⟩) ∧
    (is2xx (AlunoController.atualizar (Except.ok 1)).status = true ∧
     AlunoController.atualizar (Except.ok 1) =
       ⟨200, Body.envelope "Aluno atualizado com sucesso!"⟩) ∧
    (is4xx (AlunoController.atualizar (Except.ok 0)).status = true ∧
     is4xx (AlunoController.atualizar (Except.ok 9)).status = true) ∧
    (is2xx (AlunoController.remover (Except.ok 1)).status = true ∧
     AlunoController.remover (Except.ok 1) =
       ⟨200, Body.str "Aluno removido com sucesso."⟩) ∧
    (is4xx (AlunoController.remover (Except.ok 0)).status = true ∧
     is4xx (AlunoController.remover (Except.ok 9)).status = true ∧
     AlunoController.remover (Except.ok 9) = ⟨400, Body.str "Aluno não encontrado."⟩) ∧
    (is2xx (AlunoControllerV2.cadastrar dtoValido (Except.ok 1)).status = true ∧
     is4xx (AlunoControllerV2.cadastrar dtoValido (Except.ok 0)).status = true ∧
     is4xx (AlunoControllerV2.cadastrar dtoValido (Except.ok 9)).status = true) ∧
    (is2xx (AlunoControllerV2.atualizar (Except.ok 1)).status = true ∧
     is4xx (AlunoControllerV2.atualizar (Except.ok 0)).status = true ∧
     is4xx (AlunoControllerV2.atualizar (Except.ok 9)).status = true) ∧
    (is2xx (AlunoControllerV2.remover (Except.ok 1)).status = true ∧
     is4xx (AlunoControllerV2.remover (Except.ok 0)).status = true ∧
     is4xx (AlunoControllerV2.remover (Except.ok 9)).status = true) := by
  decide

/-- C6 counterexample: in the second controller copy, a throwing
`listarAlunos` is answered with status 400, which is not a 500-class
status — refuting the claim that every controller operation maps a store
failure to a 500-class response. -/
theorem storeFailure_500_cex :
    (AlunoControllerV2.todos (Except.error ())).status = 400 ∧
    is5xx (AlunoControllerV2.todos (Except.error ())).status = false := by
  decide

/-- C6 amended: a store failure is answered with a 500-class status by
all four operations of the first controller copy and by the second
copy's remover; the second copy's todos and cadastrar answer 400, and
its atualizar answers with the default status 200. -/
theorem storeFailure_status_by_operation :
    is5xx (AlunoController.todos (Except.error ())).status = true ∧
    is5xx (AlunoController.cadastrar dtoValido (Except.error ())).status = true ∧
    is5xx (AlunoController.remover (Except.error ())).status = true ∧
    is5xx (AlunoController.atualizar (Except.error ())).status = true ∧
    (AlunoControllerV2.todos (Except.error ())).status = 400 ∧
    (AlunoControllerV2.cadastrar dtoValido (Except.error ())).status = 400 ∧
    is5xx (AlunoControllerV2.remover (Except.error ())).status = true ∧
    (AlunoControllerV2.atualizar (Except.error ())).status = 200 := by
  decide

/-- C7 counterexample: `remover` answers the success outcome with the
bare JSON string "Aluno removido com sucesso.", not a mensagem-shaped
envelope — refuting the claim that every non-list response body has the
envelope shape. -/
theorem envelope_shape_cex :
    Body.isEnvelope (AlunoController.remover (Except.ok 1)).body = false ∧
    (AlunoController.remover (Except.ok 1)).body =
      Body.str "Aluno removido com sucesso." := by
  decide

/-- C7 amended: the list endpoint answers with a raw JSON array on
success; the non-list responses of cadastrar and atualizar (and the list
endpoint's error response) carry the mensagem-shaped envelope; but every
switch response of remover is a bare JSON string, and the first copy's
remover catch block sends plain text. -/
theorem response_body_shapes (l : List Aluno) (dto : AlunoDTO) (r : Int) :
    (AlunoController.todos (Except.ok l)).body = Body.arr l ∧
    Body.isEnvelope (AlunoController.cadastrar dto (Except.ok r)).body = true ∧
    Body.isEnvelope (AlunoController.cadastrar dto (Except.error ())).body = true ∧
    Body.isEnvelope (AlunoController.atualizar (Except.ok r)).body = true ∧
    Body.isEnvelope (AlunoController.todos (Except.error ())).body = true ∧
    Body.isStr (AlunoController.remover (Except.ok r)).body = true ∧
    Body.isText (AlunoController.remover (Except.error ())).body = true ∧
    (AlunoControllerV2.todos (Except.ok l)).body = Body.arr l ∧
    Body.isEnvelope (AlunoControllerV2.cadastrar dto (Except.ok r)).body = true ∧
    Body.isEnvelope (AlunoControllerV2.atualizar (Except.ok r)).body = true ∧
    Body.isStr (AlunoControllerV2.remover (Except.ok r)).body = true := by
  refine ⟨rfl, ?_, ?_, ?_, rfl, ?_, rfl, rfl, ?_, ?_, ?_⟩
  · unfold AlunoController.cadastrar
    by_cases hg : camposObrigatoriosFaltando dto <;> simp [hg, Body.isEnvelope]
  · unfold AlunoController.cadastrar
    by_cases hg : camposObrigatoriosFaltando dto <;> simp [hg, Body.isEnvelope]
  · simp [AlunoController.atualizar, Body.isEnvelope]
  · unfold AlunoController.remover
    by_cases h0 : r = 0 <;> by_cases h1 : r = 1 <;> by_cases h9 : r = 9 <;>
      simp [h0, h1, h9, Body.isStr]
  · unfold AlunoControllerV2.cadastrar
    by_cases hg : camposObrigatoriosFaltando dto <;> simp [hg, Body.isEnvelope]
  · unfold AlunoControllerV2.atualizar
    by_cases h0 : r = 0 <;> by_cases h1 : r = 1 <;> by_cases h9 : r = 9 <;>
      simp [h0, h1, h9, Body.isEnvelope]
  · unfold AlunoControllerV2.remover
    by_cases h0 : r = 0 <;> by_cases h1 : r = 1 <;> by_cases h9 : r = 9 <;>
      simp [h0, h1, h9, Body.isStr]

/-- C8: the response tables are total — every result code outside the
known set 0, 1, 9 is answered exactly as code 0: cadastrar through the
nullish-coalescing fallback to the 0 entry (in both copies) and remover
through its default switch branch. -/
theorem unknown_result_code_default (r : Int) (h0 : r ≠ 0) (h1 : r ≠ 1) (h9 : r ≠ 9) :
    (∀ dto, AlunoController.cadastrar dto (Except.ok r) =
        AlunoController.cadastrar dto (Except.ok 0)) ∧
    AlunoController.remover (Except.ok r) = AlunoController.remover (Except.ok 0) ∧
    (∀ dto, AlunoControllerV2.cadastrar dto (Except.ok r) =
        AlunoControllerV2.cadastrar dto (Except.ok 0)) := by
  refine ⟨?_, ?_, ?_⟩
  · intro dto
    unfold AlunoController.cadastrar
    by_cases hg : camposObrigatoriosFaltando dto <;>
      simp [hg, AlunoController.mensagens, h0, h1, h9]
  · unfold AlunoController.remover
    simp [h0, h1, h9]
  · intro dto
    unfold AlunoControllerV2.cadastrar
    by_cases hg : camposObrigatoriosFaltando dto <;>
      simp [hg, AlunoControllerV2.mensagens, h0, h1, h9]

/-- C8 witness: the unknown result code 7 is answered as code 0 by
remover. -/
theorem unknown_result_code_default_witness :
    (7 : Int) ≠ 0 ∧
    AlunoController.remover (Except.ok 7) = AlunoController.remover (Except.ok 0) :=
  ⟨by decide, (unknown_result_code_default 7 (by decide) (by decide) (by decide)).2.1⟩

/-- C9: on every request body and every domain result code delivered
without a thrown error, the two source copies of
`AlunoController.cadastrar` produce the same status and the same
envelope body: same 406 guard, same 0/1/9 table, same fallback. -/
theorem cadastrar_copies_equivalent (dto : AlunoDTO) (r : Int) :
    AlunoController.cadastrar dto (Except.ok r) =
    AlunoControllerV2.cadastrar dto (Except.ok r) := rfl

/-- C1: on the protected `GET listar-alunos` route the controller runs if
and only if token verification succeeds — with a valid token the
controller runs exactly once and the response is 200 with the entity
list; with no token header the response is 401 with an error envelope
and the controller never runs. -/
theorem listarAlunos_gated (header : Option AuthToken) (secret : Nat)
    (lista : Except Unit (List Aluno)) (l : List Aluno) (s : String)
    (hv : verifyTokenMiddleware header secret = AuthorizationOutcome.Authorized s) :
    listarAlunosRoute header secret (Except.ok l) = (⟨200, Body.arr l⟩, 1) ∧
    (listarAlunosRoute none secret lista).1.status = 401 ∧
    Body.isEnvelope (listarAlunosRoute none secret lista).1.body = true ∧
    (listarAlunosRoute none secret lista).2 = 0 ∧
    (∀ h2 : Option AuthToken,
        (listarAlunosRoute h2 secret lista).2 = 1 ↔
          ∃ s2, verifyTokenMiddleware h2 secret = AuthorizationOutcome.Authorized s2) := by
  refine ⟨?_, rfl, rfl, rfl, ?_⟩
  · simp [listarAlunosRoute, hv, AlunoController.todos]
  · intro h2
    unfold listarAlunosRoute
    cases hvt : verifyTokenMiddleware h2 secret with
    | Authorized s2 => simp [hvt]
    | Unauthorized reason => simp [hvt]

/-- C1 witness: a token issued for "ana" under secret 5 passes the
middleware and the route invokes the controller exactly once, answering
200 with the list. -/
theorem listarAlunos_gated_witness :
    verifyTokenMiddleware (some (issue "ana" 5 0)) 5 =
      AuthorizationOutcome.Authorized "ana" ∧
    listarAlunosRoute (some (issue "ana" 5 0)) 5 (Except.ok []) =
      (⟨200, Body.arr []⟩, 1) :=
  ⟨by decide,
   (listarAlunos_gated (some (issue "ana" 5 0)) 5 (Except.ok []) [] "ana" (by decide)).1⟩

/-- C10: `Usuario.listarUsuarios` never exposes password material —
every user in a returned list has an empty `senha`, and two database
states whose rows agree on everything except the `senha` column produce
the same output. -/
theorem listarUsuarios_no_senha (db : Except Unit (List UsuarioRow)) (l : List Usuario)
    (hl : listarUsuarios db = some l)
    (rows rows2 : List UsuarioRow)
    (hagree : List.Forall₂ rowsAgreeExceptSenha rows rows2) :
    (∀ u ∈ l, u.senha = "") ∧
    listarUsuarios (Except.ok rows) = listarUsuarios (Except.ok rows2) := by
  constructor
  · intro u hu
    cases db with
    | error e => simp [listarUsuarios] at hl
    | ok rs =>
        simp only [listarUsuarios, Option.some.injEq] at hl
        subst hl
        simp only [List.mem_map] at hu
        obtain ⟨a, _, ha⟩ := hu
        subst ha
        rfl
  · simp only [listarUsuarios]
    congr 1
    induction hagree with
    | nil => rfl
    | @cons a b l1 l2 hab htail ih =>
        simp only [List.map_cons, List.cons.injEq]
        refine ⟨?_, ih⟩
        obtain ⟨h1, h2, h3, h4, h5⟩ := hab
        simp [Usuario.new, h1, h2, h3, h4, h5]

/-- C10 witness: a single-row database yields a user with empty senha,
and changing only the stored senha column leaves the output unchanged. -/
theorem listarUsuarios_no_senha_witness :
    (∀ u ∈ [(⟨7, "u-7", "Ana", "ana", "ana@mail.com", ""⟩ : Usuario)], u.senha = "") ∧
    listarUsuarios (Except.ok [⟨7, "u-7", "Ana", "ana", "ana@mail.com", "s1"⟩]) =
      listarUsuarios (Except.ok [⟨7, "u-7", "Ana", "ana", "ana@mail.com", "s2"⟩]) :=
  listarUsuarios_no_senha
    (Except.ok [⟨7, "u-7", "Ana", "ana", "ana@mail.com", "s1"⟩])
    [⟨7, "u-7", "Ana", "ana", "ana@mail.com", ""⟩]
    (by decide)
    [⟨7, "u-7", "Ana", "ana", "ana@mail.com", "s1"⟩]
    [⟨7, "u-7", "Ana", "ana", "ana@mail.com", "s2"⟩]
    (List.Forall₂.cons ⟨rfl, rfl, rfl, rfl, rfl⟩ List.Forall₂.nil)
